import Mathlib

/-!
Shallow embedding of the uncertainty-quantification engine of the
`climada_python` repository (files `unc_output.py`, `calc_impact.py`,
`calc_cost_benefit.py`) together with proofs settling the frozen claims
C1 to C10.

Python values that appear inside pandas DataFrames, DataFrame `attrs`
dictionaries and keyword-argument records are modelled by the inductive
type `PyVal`.  A pandas DataFrame is modelled column-oriented: a row
count (the length of the index), a list of named columns and the `attrs`
dictionary.  Dictionaries are association lists in insertion order, as
in Python.  A function that can raise returns `Except String` or
`Option` (with `none` standing for the raised exception).
-/

namespace Climada

/-- A Python value: integers (also standing in for the numeric payloads of
the risk metrics), strings, booleans and `None`. -/
inductive PyVal where
  | pint : Int → PyVal
  | pstr : String → PyVal
  | pbool : Bool → PyVal
  | pnone : PyVal
deriving DecidableEq, Repr

/-- Decidable equality for `Except`, so that concrete runs of fallible
operations can be checked by `decide`. -/
instance {ε α : Type} [DecidableEq ε] [DecidableEq α] : DecidableEq (Except ε α) := fun a b =>
  match a, b with
  | .error e, .error f =>
    if h : e = f then .isTrue (h ▸ rfl) else .isFalse (fun hc => h (Except.error.inj hc))
  | .error _, .ok _ => .isFalse (fun hc => Except.noConfusion hc)
  | .ok _, .error _ => .isFalse (fun hc => Except.noConfusion hc)
  | .ok u, .ok v =>
    if h : u = v then .isTrue (h ▸ rfl) else .isFalse (fun hc => h (Except.ok.inj hc))

/-- Python `str()` on a `PyVal`, as used by `to_hdf5` on each sensitivity
keyword-argument value (`ds[0] = str(value)`, unc_output.py line 923). -/
def pyStr : PyVal → String
  | .pint n => toString n
  | .pstr s => s
  | .pbool b => if b then "True" else "False"
  | .pnone => "None"

/-- A pandas DataFrame: length of the row index, named columns, and the
`attrs` dictionary.  (Columns are expected to have `nrows` entries; a
DataFrame built from N empty rows has N rows and no columns.) -/
structure DataFrame where
  nrows : Nat
  cols : List (String × List PyVal)
  attrs : List (String × PyVal)
deriving DecidableEq, Repr

/-- The DataFrame `pd.DataFrame([])`: no rows, no columns. -/
def emptyDf : DataFrame := { nrows := 0, cols := [], attrs := [] }

/-- pandas `DataFrame.empty`: true when either axis has length zero. -/
def DataFrame.isEmpty (d : DataFrame) : Bool :=
  d.nrows == 0 || d.cols.isEmpty

/-- Row `i` of a DataFrame (the value tuple handed out by `iterrows`). -/
def dfRow (d : DataFrame) (i : Nat) : List PyVal :=
  d.cols.map (fun c => c.2.getD i PyVal.pnone)

/-- All rows of a DataFrame in index order, as consumed by `iterrows()`. -/
def dfRows (d : DataFrame) : List (List PyVal) :=
  (List.range d.nrows).map (fun i => dfRow d i)

/-- `pd.DataFrame(data, columns=names)` for row-major `data`: column `j`
collects entry `j` of every row. -/
def listToDf (names : List String) (rowsv : List (List PyVal)) : DataFrame :=
  { nrows := rowsv.length,
    cols := names.enum.map
      (fun p => (p.2, rowsv.map (fun r => r.getD p.1 PyVal.pnone))),
    attrs := [] }

/-- Greatest row length, giving the column count of `pd.DataFrame(data)`
built from a ragged list of lists. -/
def maxLen (l : List (List PyVal)) : Nat :=
  l.foldr (fun r m => max r.length m) 0

/-- `pd.DataFrame(data)` with a default integer column index `0,1,...`:
used for the `eai_exp` and `at_event` tables. -/
def intColsDf (rowsv : List (List PyVal)) : DataFrame :=
  listToDf ((List.range (maxLen rowsv)).map (fun j => toString j)) rowsv

/-- `pd.concat(dfs, axis=1)` on range-indexed frames: the columns are
juxtaposed and the index is the union (longest) of the indices. -/
def concatList (dfs : List DataFrame) : DataFrame :=
  { nrows := dfs.foldr (fun d m => max d.nrows m) 0,
    cols := (dfs.map (fun d => d.cols)).flatten,
    attrs := [] }

/-- Binary column-wise concat, for the accumulating concats inside
`get_sensitivity`. -/
def concat2 (a b : DataFrame) : DataFrame := concatList [a, b]

/-- Substring test on character lists (Python `sub in s`). -/
def listInfix (sub : List Char) : List Char → Bool
  | [] => sub.isEmpty
  | c :: t => sub.isPrefixOf (c :: t) || listInfix sub t

/-- Python `sub in s` on strings, as used by the metric-name scans
(`'unc' in attr_name`, `'sens' in attr_name`). -/
def strContains (sub s : String) : Bool := listInfix sub.toList s.toList

/-- A column counts as numeric (pandas `select_dtypes('number')`) when all
of its entries are integers in this model. -/
def isNumericCol (vs : List PyVal) : Bool :=
  vs.all (fun v => match v with | .pint _ => true | _ => false)

/-- `df.select_dtypes('number')`. -/
def selectNumeric (d : DataFrame) : DataFrame :=
  { d with cols := d.cols.filter (fun c => isNumericCol c.2) }

/-- `df.drop(df.select_dtypes('number').columns, axis=1)`. -/
def dropNumeric (d : DataFrame) : DataFrame :=
  { d with cols := d.cols.filter (fun c => !isNumericCol c.2) }

/-- `df[df['si'] == salib_si]`: keep the rows whose `si` entry equals the
given string; `none` models the `KeyError` raised when there is no `si`
column. -/
def rowFilterSi (d : DataFrame) (si : String) : Option DataFrame :=
  match List.lookup "si" d.cols with
  | none => none
  | some siCol =>
    let keep := (List.range d.nrows).filter
      (fun i => siCol.getD i PyVal.pnone == PyVal.pstr si)
    some { nrows := keep.length,
           cols := d.cols.map (fun c => (c.1, keep.map (fun i => c.2.getD i PyVal.pnone))),
           attrs := d.attrs }

/-- The `UncOutput` object (unc_output.py).  `samples_df` and the metadata
attributes written by the pipelines are explicit fields; every further
DataFrame-valued attribute of `__dict__` (the `*_unc_df` / `*_sens_df`
tables) lives in `dfs` in insertion order.  An `Option` field whose value
is `none` models an attribute that is absent (so that reading it raises
`AttributeError`) or, for `unit`, holds `None`. -/
structure UncOutput where
  samples_df : DataFrame
  unit : Option String
  dfs : List (String × DataFrame)
  sensitivity_method : Option String
  sensitivity_kwargs : Option (List (String × PyVal))
  cost_benefit_kwargs : Option (List (String × String))
deriving DecidableEq, Repr

/-- The DataFrame-valued attributes of `self.__dict__` in insertion order:
`samples_df` is always set first (in `UncOutput.__init__`). -/
def allDfs (o : UncOutput) : List (String × DataFrame) :=
  ("samples_df", o.samples_df) :: o.dfs

/-- Python `getattr(self, name)` restricted to the DataFrame-valued
attributes; `none` models the raised `AttributeError`. -/
def getAttrDf (o : UncOutput) (n : String) : Option DataFrame :=
  List.lookup n (allDfs o)

/-- Python `setattr` on the dynamic DataFrame attributes: replace the
binding if the name exists, otherwise append it. -/
def setAttr : List (String × DataFrame) → String → DataFrame → List (String × DataFrame)
  | [], n, d => [(n, d)]
  | (k, v) :: t, n, d => if k = n then (n, d) :: t else (k, v) :: setAttr t n d

/-- SALIB_COMPATIBILITY (unc_output.py lines 57-65), verbatim, including
the duplicated `'latin'` in the `dgsm` row. -/
def SALIB_COMPATIBILITY : List (String × List String) :=
  [("fast", ["fast_sampler"]),
   ("rbd_fast", ["latin"]),
   ("morris", ["morris"]),
   ("sobol", ["saltelli"]),
   ("delta", ["latin"]),
   ("dgsm", ["fast_sampler", "latin", "morris", "saltelli", "latin", "ff"]),
   ("ff", ["ff"])]

/-- `UncOutput.check_salib` (unc_output.py lines 113-142).  The result is
`some (returned, warned)`; `none` models a raised `KeyError`, from the
`sampling_method` property when `samples_df.attrs` has no record, or from
`SALIB_COMPATIBILITY[sensitivity_method]` when the sensitivity method is
not a key of the table.  A warning is logged exactly when `False` is
returned. -/
def check_salib (o : UncOutput) (sensitivityMethod : String) : Option (Bool × Bool) :=
  match List.lookup "sampling_method" o.samples_df.attrs with
  | none => none
  | some sm =>
    match List.lookup sensitivityMethod SALIB_COMPATIBILITY with
    | none => none
    | some compat =>
      if sm ∈ compat.map PyVal.pstr then some (true, false) else some (false, true)

/-- The pairs underlying the `uncertainty_metrics` property (unc_output.py
lines 217-233): DataFrame attributes that are non-empty and whose name
contains `'unc'`, in `__dict__` order. -/
def uncMetricPairs (o : UncOutput) : List (String × DataFrame) :=
  (allDfs o).filter (fun p => !p.2.isEmpty && strContains "unc" p.1)

/-- `UncOutput.uncertainty_metrics`: the names of all non-empty
uncertainty tables. -/
def uncertainty_metrics (o : UncOutput) : List String :=
  (uncMetricPairs o).map Prod.fst

/-- The pairs underlying the `sensitivity_metrics` property (unc_output.py
lines 235-251). -/
def sensMetricPairs (o : UncOutput) : List (String × DataFrame) :=
  (allDfs o).filter (fun p => !p.2.isEmpty && strContains "sens" p.1)

/-- `UncOutput.sensitivity_metrics`: the names of all non-empty
sensitivity tables. -/
def sensitivity_metrics (o : UncOutput) : List String :=
  (sensMetricPairs o).map Prod.fst

/-- The list comprehension `[getattr(self, metric) for metric in
metric_list]`: left to right, aborting with `AttributeError` (`none`) at
the first absent attribute. -/
def lookupAll (o : UncOutput) : List String → Option (List DataFrame)
  | [] => some []
  | n :: t =>
    match getAttrDf o n, lookupAll o t with
    | some d, some ds => some (d :: ds)
    | _, _ => none

/-- `UncOutput.get_uncertainty` (unc_output.py lines 253-283): concat the
requested (or all) uncertainty tables column-wise; an `AttributeError` is
caught and turned into `pd.DataFrame([])`, but `pd.concat` applied to an
empty list raises `ValueError`, which is not caught. -/
def get_uncertainty (o : UncOutput) (metricList : Option (List String)) :
    Except String DataFrame :=
  match lookupAll o (metricList.getD (uncertainty_metrics o)) with
  | none => .ok emptyDf
  | some dfl =>
    if dfl.isEmpty then .error "ValueError: No objects to concatenate"
    else .ok (concatList dfl)

/-- The loop body of `get_sensitivity` (unc_output.py lines 318-331),
threading the `df_meta` and `df_all` accumulators: an absent metric is
skipped (`except AttributeError: continue`), an empty table is skipped,
otherwise the rows tagged with the requested index are selected, the
numeric columns are appended to `df_all` and the non-numeric descriptor
columns are kept once in `df_meta`. -/
def sensLoop (o : UncOutput) (si : String) :
    List String → DataFrame → DataFrame → Except String (DataFrame × DataFrame)
  | [], meta, all => .ok (meta, all)
  | n :: t, meta, all =>
    match getAttrDf o n with
    | none => sensLoop o si t meta all
    | some sub =>
      if sub.isEmpty then sensLoop o si t meta all
      else
        match rowFilterSi sub si with
        | none => .error "KeyError: si"
        | some subF =>
          sensLoop o si t
            (if meta.isEmpty then dropNumeric subF else meta)
            (concat2 all (selectNumeric subF))

/-- `UncOutput.get_sensitivity` (unc_output.py lines 285-332). -/
def get_sensitivity (o : UncOutput) (si : String) (metricList : Option (List String)) :
    Except String DataFrame :=
  (sensLoop o si (metricList.getD (sensitivity_metrics o)) emptyDf emptyDf).map
    (fun p => concat2 p.1 p.2)

/-- The HDF5 container written by `to_hdf5`: one dataset per DataFrame
attribute (pandas `HDFStore.put` with `format='fixed'`, which does not
persist `DataFrame.attrs`), the pickled `samples_df.attrs` metadata
side-record, and the scalar/string side-records `impact_unit`,
`sensitivity_method` and the `sensitivity_kwargs` group. -/
structure H5File where
  dfs : List (String × DataFrame)
  samplesAttrs : List (String × PyVal)
  impact_unit : String
  sens_method : String
  sens_kwargs : List (String × String)
deriving DecidableEq, Repr

/-- `HDFStore.put` stores the table but not its `attrs` dictionary. -/
def stripAttrs (d : DataFrame) : DataFrame := { d with attrs := [] }

/-- Worker for `pyDict`: skip keys already emitted, and emit each new key
with the value of its last occurrence. -/
def pyDictAux (seen : List String) : List (String × PyVal) → List (String × PyVal)
  | [] => []
  | (k, v) :: t =>
    if k ∈ seen then pyDictAux seen t
    else (k, (List.lookup k t.reverse).getD v) :: pyDictAux (k :: seen) t

/-- Python `dict(pairs)`: keys in first-occurrence order, the value of a
duplicated key being the last one listed. -/
def pyDict (l : List (String × PyVal)) : List (String × PyVal) :=
  pyDictAux [] l

/-- Insertion step of the alphabetical node ordering in which both
pandas `HDFStore.keys()` (PyTables `walk_groups`) and `h5py` group
iteration hand back the stored names. -/
def insertByKey {α : Type} (p : String × α) : List (String × α) → List (String × α)
  | [] => [p]
  | q :: t => if p.1 ≤ q.1 then p :: q :: t else q :: insertByKey p t

/-- Keys of an HDF5 container (pandas store nodes as well as `h5py` group
members) are iterated in ascending name order, not in write order. -/
def sortByKey {α : Type} : List (String × α) → List (String × α)
  | [] => []
  | p :: t => insertByKey p (sortByKey t)

/-- `UncOutput.to_hdf5` (unc_output.py lines 883-924).  Every
DataFrame-valued attribute is written to the store and the
`samples_df.attrs` metadata is attached; then `fh['impact_unit'] =
[self.unit]` raises `TypeError` when `unit` is `None`, and reading
`self.sensitivity_method` / `self.sensitivity_kwargs` raises
`AttributeError` when the sensitivity step never set them.  Each
sensitivity keyword-argument value is stored as `str(value)`. -/
def to_hdf5 (o : UncOutput) : Except String H5File :=
  let stored := (allDfs o).map (fun p => (p.1, stripAttrs p.2))
  match o.unit with
  | none => .error "TypeError: impact_unit"
  | some u =>
    match o.sensitivity_method with
    | none => .error "AttributeError: sensitivity_method"
    | some m =>
      match o.sensitivity_kwargs with
      | none => .error "AttributeError: sensitivity_kwargs"
      | some kw =>
        .ok { dfs := stored,
              samplesAttrs := o.samples_df.attrs,
              impact_unit := u,
              sens_method := m,
              sens_kwargs := (pyDict kw).map (fun p => (p.1, pyStr p.2)) }

/-- `UncOutput.from_hdf5` (unc_output.py lines 926-963) on an existing
file: start from `UncOutput(pd.DataFrame())`, loop over `store.keys()` —
which yields the stored node names in ascending (alphabetical) order, not
in write order — setting each stored table as an attribute, restore
`samples_df.attrs` from the metadata side-record, then read back unit,
sensitivity method, and the kwargs group (whose keys likewise come back
in ascending name order, with string values).  So the reloaded `__dict__`
holds the tables in name order. -/
def from_hdf5 (f : H5File) : UncOutput :=
  let s := (List.lookup "samples_df" f.dfs).getD emptyDf
  { samples_df := { s with attrs := f.samplesAttrs },
    unit := some f.impact_unit,
    dfs := sortByKey (f.dfs.filter (fun p => p.1 ≠ "samples_df")),
    sensitivity_method := some f.sens_method,
    sensitivity_kwargs :=
      some ((sortByKey f.sens_kwargs).map (fun p => (p.1, PyVal.pstr p.2))),
    cost_benefit_kwargs := none }

/-- The save/load round trip of claim C1. -/
def roundTrip (o : UncOutput) : Except String UncOutput :=
  (to_hdf5 o).map from_hdf5

/-- The fixed metric tuple extracted from one `Impact` computation by
`CalcImpact._map_impact_calc` (calc_impact.py lines 207-251).  The
underlying deterministic risk model is abstracted as a function from the
sample row to these fields. -/
structure ImpMetrics where
  aai_agg : PyVal
  freq_curve : List PyVal
  eai_exp : List PyVal
  at_event : List PyVal
  tot_value : PyVal
deriving DecidableEq, Repr

/-- `CalcImpact._map_impact_calc`: run the risk model on one sample row
and blank out the optional per-exposure / per-event vectors
(`np.array([])`) when their toggles are off. -/
def mapImpactCalc (model : List PyVal → ImpMetrics) (calcEai calcAtEvent : Bool)
    (row : List PyVal) : ImpMetrics :=
  let m := model row
  { m with eai_exp := if calcEai then m.eai_exp else [],
           at_event := if calcAtEvent then m.at_event else [] }

/-- Partition a list into chunks of the given size (at least 1). -/
def chunkList {α : Type} : Nat → List α → List (List α)
  | _, [] => []
  | c, x :: xs => (x :: xs).take (max c 1) :: chunkList c ((x :: xs).drop (max c 1))
termination_by _ l => l.length
decreasing_by
  simp only [List.length_drop, List.length_cons]
  omega

/-- The external worker pool's `map` per its documented contract: the rows
are split into chunks, each chunk is mapped by some worker, and the
results are recombined in input order. -/
def poolMap {α β : Type} (f : α → β) (l : List α) (c : Nat) : List β :=
  ((chunkList c l).map (List.map f)).flatten

/-- The binding of the chunk argument at the `pool.map` call in
`CalcImpact.uncertainty` (calc_impact.py lines 180-183): the value
`min(n_samples // ncpus, 100)` is passed under the keyword exactly as
spelled in the source. -/
def impactPoolChunkArg (nSamples ncpus : Nat) : String × Nat :=
  ("chunsize", min (nSamples / ncpus) 100)

/-- The binding of the chunk argument at the `pool.map` call in
`CalcCostBenefit.calc_uncertainty` (calc_cost_benefit.py lines 170-173),
spelled identically. -/
def costbenPoolChunkArg (nSamples ncpus : Nat) : String × Nat :=
  ("chunsize", min (nSamples / ncpus) 100)

/-- `CalcImpact.uncertainty` (calc_impact.py lines 98-204).  Returns the
mutated `UncOutput`, the raised exception if any, and the list of sample
rows on which the risk model was invoked (the row-0 calibration run
followed by the full fan-out).  `rp` stands for the resolved return-period
list (the default `[5, 10, 20, 50, 100, 250]` when the caller passes
none). -/
def impUncertainty (model : List PyVal → ImpMetrics) (valueUnit : String)
    (rp : List Int) (calcEai calcAtEvent : Bool) (pool : Option Nat)
    (o : UncOutput) : UncOutput × Except String Unit × List (List PyVal) :=
  if o.samples_df.isEmpty then
    (o, .error "No sample was found. Please create one firstusing UncImpact.make_sample(N)", [])
  else
    let rows := dfRows o.samples_df
    let f := mapImpactCalc model calcEai calcAtEvent
    let ms := match pool with
      | some w => poolMap f rows (min (rows.length / w) 100)
      | none => rows.map f
    let aaiDf := listToDf ["aai_agg"] (ms.map (fun m => [m.aai_agg]))
    let freqDf := listToDf (rp.map (fun n => "rp" ++ toString n)) (ms.map (fun m => m.freq_curve))
    let eaiDf := intColsDf (ms.map (fun m => m.eai_exp))
    let atDf := intColsDf (ms.map (fun m => m.at_event))
    let totDf := listToDf ["tot_value"] (ms.map (fun m => [m.tot_value]))
    ({ o with
        unit := some valueUnit,
        dfs := setAttr (setAttr (setAttr (setAttr (setAttr o.dfs
          "aai_agg_unc_df" aaiDf) "freq_curve_unc_df" freqDf)
          "eai_exp_unc_df" eaiDf) "at_event_unc_df" atDf)
          "tot_value_unc_df" totDf },
     .ok (),
     rows.take 1 ++ rows)

/-- The fixed metric tuple extracted from one `CostBenefit` computation by
`CalcCostBenefit._map_costben_calc` (calc_cost_benefit.py lines 228-269).
Each `imp_meas_*` entry maps a measure name to its already-flattened
metrics list `[risk, risk_transf, *cost]`; `benefit` and `cost_ben_ratio`
map measure names to scalars. -/
structure CBMetrics where
  imp_meas_present : List (String × List PyVal)
  imp_meas_future : List (String × List PyVal)
  tot_climate_risk : PyVal
  benefit : List (String × PyVal)
  cost_ben_ratio : List (String × PyVal)
deriving DecidableEq, Repr

/-- First-occurrence deduplication of column names. -/
def dedupStr : List String → List String
  | [] => []
  | k :: t => k :: dedupStr (t.filter (fun s => s ≠ k))
termination_by l => l.length
decreasing_by
  exact Nat.lt_succ_of_le (List.length_filter_le _ _)

/-- `pd.DataFrame` built from a list of per-row dictionaries (also the
result of repeatedly appending one-row frames with `ignore_index=True`):
columns are the union of the keys in appearance order, missing entries
become NaN (modelled by `pnone`). -/
def dictListToDf (l : List (List (String × PyVal))) : DataFrame :=
  let keys := dedupStr ((l.map (fun r => r.map Prod.fst)).flatten)
  { nrows := l.length,
    cols := keys.map (fun k => (k, l.map (fun r => (List.lookup k r).getD PyVal.pnone))),
    attrs := [] }

/-- Rename every column (`column + ' Benef'` / `column + ' CostBen'`). -/
def renameCols (g : String → String) (d : DataFrame) : DataFrame :=
  { d with cols := d.cols.map (fun c => (g c.1, c.2)) }

/-- `imp_metric_names` (calc_cost_benefit.py lines 200-201). -/
def imp_metric_names : List String := ["risk", "risk_transf", "cost_meas", "cost_ins"]

/-- Flattening of one sample's `imp_meas_*` dictionary into the row
dictionary with keys `meas + ' - ' + m_name + ' - ' + period`
(calc_cost_benefit.py lines 208-218); `zip` truncates to the shorter of
the name and metric lists. -/
def impMeasRowDict (period : String) (imp : List (String × List PyVal)) :
    List (String × PyVal) :=
  (imp.map (fun p =>
    (imp_metric_names.zip p.2).map
      (fun q => (p.1 ++ " - " ++ q.1 ++ " - " ++ period, q.2)))).flatten

/-- The `imp_meas_present` / `imp_meas_future` table: built from all rows
when the first sample's dictionary is non-empty (`if imp_meas[0]:`),
otherwise left as the initial empty DataFrame. -/
def impMeasDf (period : String) (l : List (List (String × List PyVal))) : DataFrame :=
  if l.getD 0 [] ≠ [] then dictListToDf (l.map (impMeasRowDict period)) else emptyDf

/-- `CalcCostBenefit.calc_uncertainty` (calc_cost_benefit.py lines
113-226).  Returns the mutated `UncOutput`, the raised exception if any,
and the trace of risk-model invocations as pairs of sample row and the
keyword arguments passed: the row-0 calibration run is made through
`map(self._map_costben_calc, one_sample)` WITHOUT the caller's
`cost_benefit_kwargs`, while the fan-out maps
`partial(self._map_costben_calc, **cost_benefit_kwargs)` over all rows. -/
def cbUncertainty (model : List PyVal → List (String × PyVal) → CBMetrics)
    (kwargs : List (String × PyVal)) (valueUnit : String) (pool : Option Nat)
    (o : UncOutput) :
    UncOutput × Except String Unit × List (List PyVal × List (String × PyVal)) :=
  if o.samples_df.isEmpty then
    (o, .error "No sample was found. Please create one firstusing UncImpact.make_sample(N)", [])
  else
    let rows := dfRows o.samples_df
    let cbs := match pool with
      | some w => poolMap (fun r => model r kwargs) rows (min (rows.length / w) 100)
      | none => rows.map (fun r => model r kwargs)
    let totDf := listToDf ["tot_climate_risk"] (cbs.map (fun m => [m.tot_climate_risk]))
    let benDf := renameCols (fun s => s ++ " Benef") (dictListToDf (cbs.map (fun m => m.benefit)))
    let cbrDf := renameCols (fun s => s ++ " CostBen")
      (dictListToDf (cbs.map (fun m => m.cost_ben_ratio)))
    let presDf := impMeasDf "present" (cbs.map (fun m => m.imp_meas_present))
    let futDf := impMeasDf "future" (cbs.map (fun m => m.imp_meas_future))
    ({ o with
        unit := some valueUnit,
        dfs := setAttr (setAttr (setAttr (setAttr (setAttr o.dfs
          "tot_climate_risk_unc_df" totDf) "benefit_unc_df" benDf)
          "cost_ben_ratio_unc_df" cbrDf) "imp_meas_present_unc_df" presDf)
          "imp_meas_future_unc_df" futDf,
        cost_benefit_kwargs := some (kwargs.map (fun p => (p.1, pyStr p.2))) },
     .ok (),
     (rows.take 1).map (fun r => (r, ([] : List (String × PyVal))))
       ++ rows.map (fun r => (r, kwargs)))

/-! ## Helper lemmas -/

theorem chunkList_flatten {α : Type} : ∀ (c : Nat) (l : List α), (chunkList c l).flatten = l
  | _, [] => by simp [chunkList]
  | c, x :: xs => by
    rw [chunkList, List.flatten_cons, chunkList_flatten c ((x :: xs).drop (max c 1)),
      List.take_append_drop]
termination_by _ l => l.length
decreasing_by
  simp only [List.length_drop, List.length_cons]
  omega

/-- The order-preserving pool map gives the same answer as a plain
sequential map, whatever the chunk size. -/
theorem poolMap_eq_map {α β : Type} (f : α → β) (l : List α) (c : Nat) :
    poolMap f l c = l.map f := by
  rw [poolMap, ← List.map_flatten, chunkList_flatten]

theorem lookup_setAttr_self : ∀ (l : List (String × DataFrame)) (n : String) (d : DataFrame),
    List.lookup n (setAttr l n d) = some d
  | [], n, d => by simp [setAttr, List.lookup]
  | (k, v) :: t, n, d => by
    by_cases h : k = n
    · rw [setAttr, if_pos h]
      simp [List.lookup]
    · rw [setAttr, if_neg h]
      simp only [List.lookup, beq_false_of_ne (fun he => h he.symm)]
      exact lookup_setAttr_self t n d

theorem lookup_setAttr_ne : ∀ (l : List (String × DataFrame)) (n m : String) (d : DataFrame),
    m ≠ n → List.lookup m (setAttr l n d) = List.lookup m l
  | [], n, m, d, h => by
    simp [setAttr, List.lookup, beq_false_of_ne h]
  | (k, v) :: t, n, m, d, h => by
    by_cases hk : k = n
    · subst hk
      rw [setAttr, if_pos rfl]
      simp [List.lookup, beq_false_of_ne h]
    · rw [setAttr, if_neg hk]
      simp only [List.lookup]
      cases hbe : m == k
      · exact lookup_setAttr_ne t n m d h
      · rfl

theorem lookup_of_mem_nodup : ∀ {l : List (String × DataFrame)} {n : String} {d : DataFrame},
    (l.map Prod.fst).Nodup → (n, d) ∈ l → List.lookup n l = some d := by
  intro l
  induction l with
  | nil => intro n d _ hm; simp at hm
  | cons p t ih =>
    intro n d hnd hm
    rcases List.mem_cons.mp hm with h | h
    · rw [← h]
      simp [List.lookup]
    · have hne : n ≠ p.1 := by
        intro he
        have : p.1 ∈ t.map Prod.fst := he ▸ List.mem_map_of_mem Prod.fst h
        exact (List.nodup_cons.mp (by simpa using hnd)).1 this
      obtain ⟨k, v⟩ := p
      simp only [List.lookup, beq_false_of_ne hne]
      exact ih (List.nodup_cons.mp (by simpa using hnd)).2 h

theorem lookupAll_map_fst {o : UncOutput} : ∀ {ps : List (String × DataFrame)},
    (∀ p ∈ ps, getAttrDf o p.1 = some p.2) →
    lookupAll o (ps.map Prod.fst) = some (ps.map Prod.snd) := by
  intro ps
  induction ps with
  | nil => intro _; rfl
  | cons p t ih =>
    intro h
    simp only [List.map_cons, lookupAll, h p (by simp), ih (fun q hq => h q (by simp [hq]))]

theorem lookupAll_eq_none {o : UncOutput} : ∀ {l : List String} {m : String},
    m ∈ l → getAttrDf o m = none → lookupAll o l = none := by
  intro l
  induction l with
  | nil => intro m hm _; simp at hm
  | cons n t ih =>
    intro m hm habs
    rcases List.mem_cons.mp hm with h | h
    · rw [← h]
      simp [lookupAll, habs]
    · cases hgn : getAttrDf o n <;> simp [lookupAll, hgn, ih h habs]

theorem sensLoop_filter_isSome (o : UncOutput) (si : String) :
    ∀ (l : List String) (meta all : DataFrame),
    sensLoop o si (l.filter (fun n => (getAttrDf o n).isSome)) meta all =
      sensLoop o si l meta all := by
  intro l
  induction l with
  | nil => intro meta all; rfl
  | cons n t ih =>
    intro meta all
    cases hg : getAttrDf o n with
    | none =>
      simp [List.filter_cons, hg, sensLoop, ih]
    | some sub =>
      simp only [List.filter_cons, hg, Option.isSome_some, cond_true, sensLoop]
      by_cases he : sub.isEmpty
      · rw [if_pos he, if_pos he, ih]
      · rw [if_neg he, if_neg he]
        cases rowFilterSi sub si
        · rfl
        · exact ih _ _

theorem lookup_pyval_eq_none : ∀ {l : List (String × PyVal)} {k : String},
    k ∉ l.map Prod.fst → List.lookup k l = none := by
  intro l
  induction l with
  | nil => intro k _; rfl
  | cons p t ih =>
    intro k hk
    have h1 : k ≠ p.1 := fun he => hk (by simp [he])
    obtain ⟨a, b⟩ := p
    simp only [List.lookup, beq_false_of_ne h1]
    exact ih (fun hm => hk (by simp [hm]))

theorem pyDictAux_eq_self : ∀ {l : List (String × PyVal)} {seen : List String},
    (l.map Prod.fst).Nodup → (∀ k ∈ l.map Prod.fst, k ∉ seen) → pyDictAux seen l = l := by
  intro l
  induction l with
  | nil => intro seen _ _; rfl
  | cons p t ih =>
    intro seen hnd hdis
    obtain ⟨k, v⟩ := p
    have hk : k ∉ t.map Prod.fst := (List.nodup_cons.mp (by simpa using hnd)).1
    rw [pyDictAux, if_neg (hdis k (by simp))]
    rw [lookup_pyval_eq_none (by simpa using hk), Option.getD_none]
    rw [ih (List.nodup_cons.mp (by simpa using hnd)).2]
    intro q hq
    simp only [List.mem_cons]
    rintro (h | h)
    · exact hk (h ▸ hq)
    · exact hdis q (by simp [hq]) h

theorem pyDict_eq_self {l : List (String × PyVal)} (h : (l.map Prod.fst).Nodup) :
    pyDict l = l :=
  pyDictAux_eq_self h (by simp)

theorem insertByKey_le {α : Type} {p : String × α} : ∀ {t : List (String × α)},
    (∀ q ∈ t, p.1 ≤ q.1) → insertByKey p t = p :: t
  | [], _ => rfl
  | q :: t, h => by rw [insertByKey, if_pos (h q (by simp))]

theorem sortByKey_eq_self {α : Type} : ∀ {l : List (String × α)},
    l.Pairwise (fun a b => a.1 ≤ b.1) → sortByKey l = l
  | [], _ => rfl
  | p :: t, h => by
    rw [sortByKey, sortByKey_eq_self (List.pairwise_cons.mp h).2,
      insertByKey_le (List.pairwise_cons.mp h).1]

theorem stripAttrs_restore (d : DataFrame) (a : List (String × PyVal)) :
    ({ stripAttrs d with attrs := a } : DataFrame) = { d with attrs := a } := by
  cases d
  rfl

theorem stripAttrs_eq_self {d : DataFrame} (h : d.attrs = []) : stripAttrs d = d := by
  cases d
  simp_all [stripAttrs]

theorem restore_dfs : ∀ {l : List (String × DataFrame)},
    "samples_df" ∉ l.map Prod.fst → (∀ p ∈ l, p.2.attrs = ([] : List (String × PyVal))) →
    (l.map (fun p => (p.1, stripAttrs p.2))).filter (fun p => p.1 ≠ "samples_df") = l := by
  intro l
  induction l with
  | nil => intro _ _; rfl
  | cons p t ih =>
    intro hn ha
    have h1 : p.1 ≠ "samples_df" := fun he => hn (by simp [← he])
    have h2 : stripAttrs p.2 = p.2 := stripAttrs_eq_self (ha p (by simp))
    simp only [List.map_cons, List.filter_cons, h2]
    rw [if_pos (by simpa using h1)]
    rw [ih (fun hm => hn (by simp [hm])) (fun q hq => ha q (by simp [hq]))]

theorem map_pstr_pyStr : ∀ {kw : List (String × PyVal)},
    (∀ p ∈ kw, ∃ s, p.2 = PyVal.pstr s) →
    (kw.map (fun p => (p.1, pyStr p.2))).map (fun p => (p.1, PyVal.pstr p.2)) = kw := by
  intro kw
  induction kw with
  | nil => intro _; rfl
  | cons p t ih =>
    intro h
    obtain ⟨s, hs⟩ := h p (by simp)
    simp only [List.map_cons, ih (fun q hq => h q (by simp [hq]))]
    obtain ⟨k, v⟩ := p
    simp only at hs
    rw [hs]
    rfl

theorem getD_map_lt {α β : Type} (g : α → β) (l : List α) (i : Nat) (hi : i < l.length)
    (d : β) : (l.map g).getD i d = g (l.get ⟨i, hi⟩) := by
  simp [List.getD_eq_getElem?_getD, List.getElem?_map, List.getElem?_eq_getElem hi]

theorem dfRow_listToDf (names : List String) (rv : List (List PyVal)) (i : Nat)
    (hi : i < rv.length) :
    dfRow (listToDf names rv) i =
      (List.range names.length).map (fun j => (rv.get ⟨i, hi⟩).getD j PyVal.pnone) := by
  unfold dfRow listToDf
  simp only [List.map_map]
  rw [List.map_congr_left (g := (fun j => (rv.get ⟨i, hi⟩).getD j PyVal.pnone) ∘ Prod.fst)
    (fun p _ => getD_map_lt (fun r => r.getD p.1 PyVal.pnone) rv i hi PyVal.pnone)]
  rw [← List.map_map, List.enum_map_fst]

theorem lookup_isSome_of_mem_fst : ∀ {l : List (String × List String)} {n : String},
    n ∈ l.map Prod.fst → ∃ c, List.lookup n l = some c := by
  intro l
  induction l with
  | nil => intro n hn; simp at hn
  | cons p t ih =>
    intro n hn
    obtain ⟨k, v⟩ := p
    by_cases h : n = k
    · exact ⟨v, by simp [List.lookup, h]⟩
    · simp only [List.lookup, beq_false_of_ne h]
      exact ih (by simpa [h] using hn)

/-- Shared reduction of a successful `to_hdf5` run: with unit, sensitivity
method and sensitivity kwargs all present, saving succeeds and writes every
DataFrame attribute, the samples metadata, and the stringified kwargs. -/
theorem to_hdf5_ok (o : UncOutput) (u m : String) (kw : List (String × PyVal))
    (hu : o.unit = some u) (hm : o.sensitivity_method = some m)
    (hk : o.sensitivity_kwargs = some kw) :
    to_hdf5 o = .ok
      { dfs := (allDfs o).map (fun p => (p.1, stripAttrs p.2)),
        samplesAttrs := o.samples_df.attrs,
        impact_unit := u,
        sens_method := m,
        sens_kwargs := (pyDict kw).map (fun p => (p.1, pyStr p.2)) } := by
  unfold to_hdf5
  rw [hu, hm, hk]

/-! ## Claim C2 -/

/-- A store whose samples were generated with the `'saltelli'` sampling
method. -/
def saltelliStore : UncOutput :=
  { samples_df :=
      { nrows := 2,
        cols := [("x", [PyVal.pint 0, PyVal.pint 1])],
        attrs := [("sampling_method", PyVal.pstr "saltelli"), ("sampling_kwargs", PyVal.pnone)] },
    unit := none,
    dfs := [],
    sensitivity_method := none,
    sensitivity_kwargs := none,
    cost_benefit_kwargs := none }

/-- Claim C2 (counterexample): `check_salib` is claimed never to raise, but
for the sensitivity method `'hdmr'` — not a key of SALIB_COMPATIBILITY —
`SALIB_COMPATIBILITY[sensitivity_method]` raises `KeyError` (modelled by
`none`), even on a store with a recorded sampling method. -/
theorem C2_counterexample : check_salib saltelliStore "hdmr" = none := by decide

/-- Claim C2 (amended): for every sensitivity method that is a key of
SALIB_COMPATIBILITY and every store with a recorded sampling method,
`check_salib` returns a boolean and logs a warning exactly when it returns
`False`; for `'sobol'` it returns `True` precisely when the recorded
sampling method is `'saltelli'`.  For sensitivity methods outside the
table it raises `KeyError`. -/
theorem C2_amended (o : UncOutput) (sm : String) (v : PyVal)
    (hrec : List.lookup "sampling_method" o.samples_df.attrs = some v)
    (htab : sm ∈ SALIB_COMPATIBILITY.map Prod.fst) :
    ∃ b, check_salib o sm = some (b, !b) ∧
      (sm = "sobol" → (b = true ↔ v = PyVal.pstr "saltelli")) := by
  obtain ⟨compat, hc⟩ := lookup_isSome_of_mem_fst htab
  have hsobol : sm = "sobol" → compat = ["saltelli"] := by
    intro hs
    rw [hs] at hc
    have hlk : List.lookup "sobol" SALIB_COMPATIBILITY = some ["saltelli"] := by decide
    rw [hlk] at hc
    exact (Option.some.inj hc).symm
  have hred : check_salib o sm =
      (if v ∈ compat.map PyVal.pstr then some (true, false) else some (false, true)) := by
    unfold check_salib
    rw [hrec, hc]
  by_cases hv : v ∈ compat.map PyVal.pstr
  · refine ⟨true, by rw [hred, if_pos hv]; rfl, fun hs => ?_⟩
    rw [hsobol hs] at hv
    simp only [List.map_cons, List.map_nil, List.mem_singleton] at hv
    simp [hv]
  · refine ⟨false, by rw [hred, if_neg hv]; rfl, fun hs => ?_⟩
    rw [hsobol hs] at hv
    simp only [List.map_cons, List.map_nil, List.mem_singleton] at hv
    simp [hv]

/-- Witness for C2_amended at the saltelli store and the sobol method. -/
theorem C2_witness :
    ∃ b, check_salib saltelliStore "sobol" = some (b, !b) ∧
      ("sobol" = "sobol" → (b = true ↔ PyVal.pstr "saltelli" = PyVal.pstr "saltelli")) :=
  C2_amended saltelliStore "sobol" (PyVal.pstr "saltelli") (by decide) (by decide)

/-! ## Claim C3 -/

/-- A store holding only an empty samples DataFrame. -/
def emptySampleStore : UncOutput :=
  { samples_df := emptyDf, unit := none, dfs := [], sensitivity_method := none,
    sensitivity_kwargs := none, cost_benefit_kwargs := none }

/-- Claim C3: on a store with an empty samples_df, both
`CalcImpact.uncertainty` and `CalcCostBenefit.calc_uncertainty` raise a
ValueError instructing the caller to make a sample first, invoke the risk
model on no row at all, and leave the store unchanged (no unit, no metric
tables). -/
theorem C3_empty_sample (model : List PyVal → ImpMetrics) (u : String) (rp : List Int)
    (ce ca : Bool) (pool : Option Nat)
    (model2 : List PyVal → List (String × PyVal) → CBMetrics)
    (kwargs : List (String × PyVal)) (u2 : String) (pool2 : Option Nat)
    (o : UncOutput) (h : o.samples_df.isEmpty = true) :
    impUncertainty model u rp ce ca pool o =
      (o, .error "No sample was found. Please create one firstusing UncImpact.make_sample(N)", []) ∧
    cbUncertainty model2 kwargs u2 pool2 o =
      (o, .error "No sample was found. Please create one firstusing UncImpact.make_sample(N)", []) := by
  constructor
  · unfold impUncertainty
    rw [if_pos h]
  · unfold cbUncertainty
    rw [if_pos h]

/-- Witness for C3_empty_sample at a concrete empty store. -/
theorem C3_witness :
    impUncertainty (fun _ => ⟨PyVal.pint 0, [], [], [], PyVal.pint 0⟩) "USD" [5] false false none
        emptySampleStore =
      (emptySampleStore,
       .error "No sample was found. Please create one firstusing UncImpact.make_sample(N)", []) ∧
    cbUncertainty (fun _ _ => ⟨[], [], PyVal.pint 0, [], []⟩) [] "USD" none emptySampleStore =
      (emptySampleStore,
       .error "No sample was found. Please create one firstusing UncImpact.make_sample(N)", []) :=
  C3_empty_sample _ "USD" [5] false false none _ [] "USD" none emptySampleStore (by decide)

/-! ## Claim C7 -/

/-- A freshly created store: samples only (the Created state). -/
def c7CreatedStore : UncOutput :=
  { samples_df :=
      { nrows := 2,
        cols := [("x", [PyVal.pint 0, PyVal.pint 1])],
        attrs := [("sampling_method", PyVal.pstr "latin"), ("sampling_kwargs", PyVal.pnone)] },
    unit := none,
    dfs := [],
    sensitivity_method := none,
    sensitivity_kwargs := none,
    cost_benefit_kwargs := none }

/-- The same store after evaluation: unit and one uncertainty table set,
but no sensitivity data yet (the Evaluated state). -/
def c7EvaluatedStore : UncOutput :=
  { c7CreatedStore with
      unit := some "USD",
      dfs := [("aai_agg_unc_df",
        { nrows := 2, cols := [("aai_agg", [PyVal.pint 5, PyVal.pint 6])], attrs := [] })] }

/-- The same store after the sensitivity step (the Analyzed state). -/
def c7AnalyzedStore : UncOutput :=
  { c7EvaluatedStore with
      sensitivity_method := some "sobol",
      sensitivity_kwargs := some [("calc_second_order", PyVal.pbool false)] }

/-- Claim C7 (counterexample): saving does NOT succeed from every reachable
state: from the Created state `fh['impact_unit'] = [None]` raises
TypeError, and from the Evaluated state reading `self.sensitivity_method`
raises AttributeError. -/
theorem C7_counterexample :
    to_hdf5 c7CreatedStore = .error "TypeError: impact_unit" ∧
    to_hdf5 c7EvaluatedStore = .error "AttributeError: sensitivity_method" := by decide

/-- Claim C7 (amended): persistence succeeds exactly from the states in
which `unit`, `sensitivity_method` and `sensitivity_kwargs` are all set
(the Analyzed state), and it then preserves every populated DataFrame
attribute together with the samples metadata. -/
theorem C7_amended (o : UncOutput) (u m : String) (kw : List (String × PyVal))
    (hu : o.unit = some u) (hm : o.sensitivity_method = some m)
    (hk : o.sensitivity_kwargs = some kw) :
    to_hdf5 o = .ok
      { dfs := (allDfs o).map (fun p => (p.1, stripAttrs p.2)),
        samplesAttrs := o.samples_df.attrs,
        impact_unit := u,
        sens_method := m,
        sens_kwargs := (pyDict kw).map (fun p => (p.1, pyStr p.2)) } :=
  to_hdf5_ok o u m kw hu hm hk

/-- Witness for C7_amended at the concrete Analyzed store. -/
theorem C7_witness :
    to_hdf5 c7AnalyzedStore = .ok
      { dfs := (allDfs c7AnalyzedStore).map (fun p => (p.1, stripAttrs p.2)),
        samplesAttrs := c7AnalyzedStore.samples_df.attrs,
        impact_unit := "USD",
        sens_method := "sobol",
        sens_kwargs := (pyDict [("calc_second_order", PyVal.pbool false)]).map
          (fun p => (p.1, pyStr p.2)) } :=
  C7_amended c7AnalyzedStore "USD" "sobol" [("calc_second_order", PyVal.pbool false)] rfl rfl rfl

/-! ## Claim C8 -/

/-- Claim C8 (code evaluation at the failing input): for 10 samples and 3
workers both pipelines compute the chunk value `min(10 // 3, 100) = 3`,
but bind it to the keyword `'chunsize'`, which is not the chunk-size
parameter `'chunksize'` of the external pool map — so the computed chunk
size never controls the partition. -/
theorem C8_chunk_keyword :
    impactPoolChunkArg 10 3 = ("chunsize", 3) ∧
    costbenPoolChunkArg 10 3 = ("chunsize", 3) ∧
    ¬ (impactPoolChunkArg 10 3).1 = "chunksize" ∧
    ¬ (costbenPoolChunkArg 10 3).1 = "chunksize" := by decide

/-! ## Claim C1 -/

theorem strip_then_restore (d : DataFrame) :
    ({ stripAttrs d with attrs := d.attrs } : DataFrame) = d := by
  cases d
  rfl

/-- An Analyzed store whose sensitivity kwargs hold a non-string value. -/
def c1BadStore : UncOutput :=
  { samples_df :=
      { nrows := 1,
        cols := [("x", [PyVal.pint 0])],
        attrs := [("sampling_method", PyVal.pstr "saltelli"), ("sampling_kwargs", PyVal.pnone)] },
    unit := some "USD",
    dfs := [("aai_agg_unc_df",
      { nrows := 1, cols := [("aai_agg", [PyVal.pint 9])], attrs := [] })],
    sensitivity_method := some "sobol",
    sensitivity_kwargs := some [("nsamp", PyVal.pint 4)],
    cost_benefit_kwargs := none }

/-- The same store with the kwargs value already a string. -/
def c1GoodStore : UncOutput :=
  { c1BadStore with sensitivity_kwargs := some [("nsamp", PyVal.pstr "4")] }

/-- Claim C1 (counterexample): the save/load round trip does not restore
this store: its sensitivity kwargs value `4` (an int) is written as
`str(4)` and read back as the string `'4'`, so the restored object is
distinguishable from the original. -/
theorem C1_counterexample : roundTrip c1BadStore ≠ .ok c1BadStore := by decide

/-- Claim C1 (amended): the round trip restores every table's values,
shapes and dtypes, the samples metadata and the unit string exactly, but
hands the table attributes back in ascending name order (the reload loop
iterates `store.keys()`, which is alphabetical, not write order — the
reloaded `__dict__` order is observable through `uncertainty_metrics` and
the default column order of `get_uncertainty`), and restores sensitivity
kwargs only up to `str()` coercion of the values and alphabetical
reordering and deduplication of the keys; so `load(save(store))` equals
the store exactly when its table attribute names are already listed in
ascending order, its kwargs values are already strings, its kwargs keys
are distinct and listed in ascending order, its tables carry no auxiliary
`attrs`, and no unpersisted `cost_benefit_kwargs` attribute is set. -/
theorem C1_amended (o : UncOutput) (u m : String) (kw : List (String × PyVal))
    (hu : o.unit = some u) (hm : o.sensitivity_method = some m)
    (hk : o.sensitivity_kwargs = some kw)
    (hnd : (kw.map Prod.fst).Nodup)
    (hsorted : kw.Pairwise (fun a b => a.1 ≤ b.1))
    (hstrs : ∀ p ∈ kw, ∃ s, p.2 = PyVal.pstr s)
    (hsname : "samples_df" ∉ o.dfs.map Prod.fst)
    (hdfssorted : o.dfs.Pairwise (fun a b => a.1 ≤ b.1))
    (hattrs : ∀ p ∈ o.dfs, p.2.attrs = ([] : List (String × PyVal)))
    (hcb : o.cost_benefit_kwargs = none) :
    roundTrip o = .ok o := by
  have hmapped : (kw.map (fun p => (p.1, pyStr p.2))).Pairwise
      (fun a b : String × String => a.1 ≤ b.1) :=
    (List.pairwise_map).mpr (hsorted.imp (fun hab => hab))
  have hkwed : (sortByKey ((pyDict kw).map (fun p => (p.1, pyStr p.2)))).map
      (fun p => (p.1, PyVal.pstr p.2)) = kw := by
    rw [pyDict_eq_self hnd, sortByKey_eq_self hmapped, map_pstr_pyStr hstrs]
  obtain ⟨sdf, un, dfs, sm0, sk0, cb0⟩ := o
  replace hu : un = some u := hu
  replace hm : sm0 = some m := hm
  replace hk : sk0 = some kw := hk
  replace hcb : cb0 = none := hcb
  replace hsname : "samples_df" ∉ dfs.map Prod.fst := hsname
  replace hdfssorted : dfs.Pairwise (fun a b => a.1 ≤ b.1) := hdfssorted
  replace hattrs : ∀ p ∈ dfs, p.2.attrs = ([] : List (String × PyVal)) := hattrs
  subst hu hm hk hcb
  unfold roundTrip
  rw [to_hdf5_ok _ u m kw rfl rfl rfl]
  show Except.ok (from_hdf5 _) = _
  unfold from_hdf5
  simp only [allDfs, List.map_cons, List.lookup, beq_self_eq_true, Option.getD_some]
  simp only [List.filter_cons, hkwed]
  rw [if_neg (by simp)]
  rw [restore_dfs hsname hattrs, sortByKey_eq_self hdfssorted]
  simp only [Except.ok.injEq, UncOutput.mk.injEq]
  exact ⟨strip_then_restore sdf, by trivial, by trivial, by trivial, by trivial, by trivial⟩

/-- Witness for C1_amended at a concrete well-behaved Analyzed store. -/
theorem C1_witness : roundTrip c1GoodStore = .ok c1GoodStore :=
  C1_amended c1GoodStore "USD" "sobol" [("nsamp", PyVal.pstr "4")] rfl rfl rfl
    (by decide) (by simp)
    (by
      intro p hp
      simp only [c1GoodStore, c1BadStore, List.mem_singleton] at hp
      subst hp
      exact ⟨"4", rfl⟩)
    (by decide) (by simp [c1GoodStore, c1BadStore]) (by decide) rfl

/-! ## Claim C4 -/

/-- Claim C4: for a non-empty sample set, evaluating with a worker pool of
any size produces exactly the same `UncOutput` (all metric tables
row-for-row identical), the same outcome and the same invocation trace as
the sequential map, for both pipelines. -/
theorem C4_pool_eq_seq (model : List PyVal → ImpMetrics) (u : String) (rp : List Int)
    (ce ca : Bool) (w : Nat) (o : UncOutput) (h : o.samples_df.isEmpty = false)
    (model2 : List PyVal → List (String × PyVal) → CBMetrics)
    (kw : List (String × PyVal)) (u2 : String) (w2 : Nat) (o2 : UncOutput)
    (h2 : o2.samples_df.isEmpty = false) :
    impUncertainty model u rp ce ca (some w) o = impUncertainty model u rp ce ca none o ∧
    cbUncertainty model2 kw u2 (some w2) o2 = cbUncertainty model2 kw u2 none o2 := by
  constructor
  · simp [impUncertainty, h, poolMap_eq_map]
  · simp [cbUncertainty, h2, poolMap_eq_map]

/-- A small two-sample store with empty attrs. -/
def twoSampleStore : UncOutput :=
  { samples_df :=
      { nrows := 2,
        cols := [("x", [PyVal.pint 1, PyVal.pint 2])],
        attrs := [] },
    unit := none,
    dfs := [],
    sensitivity_method := none,
    sensitivity_kwargs := none,
    cost_benefit_kwargs := none }

/-- A deterministic impact model reading the first parameter. -/
def impDemoModel : List PyVal → ImpMetrics := fun r =>
  { aai_agg := r.getD 0 PyVal.pnone,
    freq_curve := [r.getD 0 PyVal.pnone],
    eai_exp := [r.getD 0 PyVal.pnone, PyVal.pint 8],
    at_event := [],
    tot_value := PyVal.pint 3 }

/-- A deterministic cost-benefit model whose result depends on whether the
keyword arguments are empty. -/
def cbDemoModel : List PyVal → List (String × PyVal) → CBMetrics := fun _ k =>
  { imp_meas_present := [],
    imp_meas_future := [],
    tot_climate_risk := if k.isEmpty then PyVal.pint 0 else PyVal.pint 1,
    benefit := [("meas1", PyVal.pint 2)],
    cost_ben_ratio := [("meas1", PyVal.pint 3)] }

/-- Witness for C4_pool_eq_seq at a concrete store, model, and pools of
width 2 and 3. -/
theorem C4_witness :
    impUncertainty impDemoModel "USD" [5] false false (some 2) twoSampleStore =
      impUncertainty impDemoModel "USD" [5] false false none twoSampleStore ∧
    cbUncertainty cbDemoModel [] "USD" (some 3) twoSampleStore =
      cbUncertainty cbDemoModel [] "USD" none twoSampleStore :=
  C4_pool_eq_seq impDemoModel "USD" [5] false false 2 twoSampleStore (by decide)
    cbDemoModel [] "USD" 3 twoSampleStore (by decide)

/-! ## Claim C5 -/

/-- Facts about a metric table built by `listToDf` from per-row data: it
has one row per sample, and row `i` is derived from sample row `i`. -/
theorem table_facts (names : List String) (g : List PyVal → List PyVal)
    (rows : List (List PyVal)) :
    (listToDf names (rows.map g)).nrows = rows.length ∧
    ∀ i (hi : i < rows.length), dfRow (listToDf names (rows.map g)) i =
      (List.range names.length).map (fun j => (g (rows.get ⟨i, hi⟩)).getD j PyVal.pnone) := by
  constructor
  · simp [listToDf]
  · intro i hi
    rw [dfRow_listToDf names (rows.map g) i (by simpa using hi)]
    refine List.map_congr_left (fun j _ => ?_)
    congr 1
    simp [List.get_eq_getElem, List.getElem_map]

theorem getAttrDf_ne_samples (o : UncOutput) (n : String) (hne : n ≠ "samples_df") :
    getAttrDf o n = List.lookup n o.dfs := by
  unfold getAttrDf allDfs
  simp only [List.lookup, beq_false_of_ne hne]

/-- Reduction of the sequential impact pipeline on a non-empty sample set. -/
theorem impUncertainty_none (model : List PyVal → ImpMetrics) (u : String) (rp : List Int)
    (ce ca : Bool) (o : UncOutput) (h : o.samples_df.isEmpty = false) :
    impUncertainty model u rp ce ca none o =
      ({ o with
          unit := some u,
          dfs := setAttr (setAttr (setAttr (setAttr (setAttr o.dfs
            "aai_agg_unc_df" (listToDf ["aai_agg"]
              (((dfRows o.samples_df).map (mapImpactCalc model ce ca)).map
                (fun m => [m.aai_agg]))))
            "freq_curve_unc_df" (listToDf (rp.map (fun n => "rp" ++ toString n))
              (((dfRows o.samples_df).map (mapImpactCalc model ce ca)).map
                (fun m => m.freq_curve))))
            "eai_exp_unc_df" (intColsDf
              (((dfRows o.samples_df).map (mapImpactCalc model ce ca)).map
                (fun m => m.eai_exp))))
            "at_event_unc_df" (intColsDf
              (((dfRows o.samples_df).map (mapImpactCalc model ce ca)).map
                (fun m => m.at_event))))
            "tot_value_unc_df" (listToDf ["tot_value"]
              (((dfRows o.samples_df).map (mapImpactCalc model ce ca)).map
                (fun m => [m.tot_value]))) },
       .ok (),
       (dfRows o.samples_df).take 1 ++ dfRows o.samples_df) := by
  unfold impUncertainty
  rw [if_neg (by simp [h])]

/-- Claim C5: on a non-empty sample set of N rows the impact pipeline
produces one table per declared metric name (`aai_agg`, `freq_curve`,
`at_event`, `eai_exp`, `tot_value`), each with exactly N rows, row `i`
being computed from sample row `i`, with no reordering. -/
theorem C5_metric_tables (model : List PyVal → ImpMetrics) (u : String) (rp : List Int)
    (ce ca : Bool) (o : UncOutput) (h : o.samples_df.isEmpty = false)
    (o2 : UncOutput) (rows : List (List PyVal)) (f : List PyVal → ImpMetrics)
    (ho2 : o2 = (impUncertainty model u rp ce ca none o).1)
    (hrows : rows = dfRows o.samples_df)
    (hf : f = mapImpactCalc model ce ca) :
    (impUncertainty model u rp ce ca none o).2.1 = Except.ok () ∧
    (∃ d, getAttrDf o2 "aai_agg_unc_df" = some d ∧ d.nrows = rows.length ∧
      ∀ i (hi : i < rows.length), dfRow d i = [(f (rows.get ⟨i, hi⟩)).aai_agg]) ∧
    (∃ d, getAttrDf o2 "freq_curve_unc_df" = some d ∧ d.nrows = rows.length ∧
      ∀ i (hi : i < rows.length), dfRow d i =
        (List.range rp.length).map
          (fun j => (f (rows.get ⟨i, hi⟩)).freq_curve.getD j PyVal.pnone)) ∧
    (∃ d, getAttrDf o2 "eai_exp_unc_df" = some d ∧ d.nrows = rows.length ∧
      ∀ i (hi : i < rows.length), dfRow d i =
        (List.range (maxLen (rows.map (fun r => (f r).eai_exp)))).map
          (fun j => (f (rows.get ⟨i, hi⟩)).eai_exp.getD j PyVal.pnone)) ∧
    (∃ d, getAttrDf o2 "at_event_unc_df" = some d ∧ d.nrows = rows.length ∧
      ∀ i (hi : i < rows.length), dfRow d i =
        (List.range (maxLen (rows.map (fun r => (f r).at_event)))).map
          (fun j => (f (rows.get ⟨i, hi⟩)).at_event.getD j PyVal.pnone)) ∧
    (∃ d, getAttrDf o2 "tot_value_unc_df" = some d ∧ d.nrows = rows.length ∧
      ∀ i (hi : i < rows.length), dfRow d i = [(f (rows.get ⟨i, hi⟩)).tot_value]) := by
  subst ho2 hrows hf
  rw [impUncertainty_none model u rp ce ca o h]
  refine ⟨rfl, ?_, ?_, ?_, ?_, ?_⟩
  · rw [getAttrDf_ne_samples _ "aai_agg_unc_df" (by decide)]
    rw [lookup_setAttr_ne _ "tot_value_unc_df" "aai_agg_unc_df" _ (by decide),
      lookup_setAttr_ne _ "at_event_unc_df" "aai_agg_unc_df" _ (by decide),
      lookup_setAttr_ne _ "eai_exp_unc_df" "aai_agg_unc_df" _ (by decide),
      lookup_setAttr_ne _ "freq_curve_unc_df" "aai_agg_unc_df" _ (by decide),
      lookup_setAttr_self]
    refine ⟨_, rfl, ?_, ?_⟩
    · rw [List.map_map]
      exact (table_facts _ _ _).1
    · intro i hi
      rw [List.map_map, (table_facts _ _ _).2 i hi]
      rfl
  · rw [getAttrDf_ne_samples _ "freq_curve_unc_df" (by decide)]
    rw [lookup_setAttr_ne _ "tot_value_unc_df" "freq_curve_unc_df" _ (by decide),
      lookup_setAttr_ne _ "at_event_unc_df" "freq_curve_unc_df" _ (by decide),
      lookup_setAttr_ne _ "eai_exp_unc_df" "freq_curve_unc_df" _ (by decide),
      lookup_setAttr_self]
    refine ⟨_, rfl, ?_, ?_⟩
    · rw [List.map_map]
      exact (table_facts _ _ _).1
    · intro i hi
      rw [List.map_map, (table_facts _ _ _).2 i hi]
      simp
  · rw [getAttrDf_ne_samples _ "eai_exp_unc_df" (by decide)]
    rw [lookup_setAttr_ne _ "tot_value_unc_df" "eai_exp_unc_df" _ (by decide),
      lookup_setAttr_ne _ "at_event_unc_df" "eai_exp_unc_df" _ (by decide),
      lookup_setAttr_self]
    refine ⟨_, rfl, ?_, ?_⟩
    · rw [intColsDf, List.map_map]
      exact (table_facts _ _ _).1
    · intro i hi
      rw [intColsDf, List.map_map, (table_facts _ _ _).2 i hi]
      simp [Function.comp_def]
  · rw [getAttrDf_ne_samples _ "at_event_unc_df" (by decide)]
    rw [lookup_setAttr_ne _ "tot_value_unc_df" "at_event_unc_df" _ (by decide),
      lookup_setAttr_self]
    refine ⟨_, rfl, ?_, ?_⟩
    · rw [intColsDf, List.map_map]
      exact (table_facts _ _ _).1
    · intro i hi
      rw [intColsDf, List.map_map, (table_facts _ _ _).2 i hi]
      simp [Function.comp_def]
  · rw [getAttrDf_ne_samples _ "tot_value_unc_df" (by decide)]
    rw [lookup_setAttr_self]
    refine ⟨_, rfl, ?_, ?_⟩
    · rw [List.map_map]
      exact (table_facts _ _ _).1
    · intro i hi
      rw [List.map_map, (table_facts _ _ _).2 i hi]
      rfl

/-- Witness for C5_metric_tables at a concrete two-sample store. -/
theorem C5_witness :
    (impUncertainty impDemoModel "USD" [5] true true none twoSampleStore).2.1 = Except.ok () ∧
    (∃ d, getAttrDf ((impUncertainty impDemoModel "USD" [5] true true none twoSampleStore).1)
        "aai_agg_unc_df" = some d ∧
      d.nrows = (dfRows twoSampleStore.samples_df).length ∧
      ∀ i (hi : i < (dfRows twoSampleStore.samples_df).length),
        dfRow d i = [(mapImpactCalc impDemoModel true true
          ((dfRows twoSampleStore.samples_df).get ⟨i, hi⟩)).aai_agg]) ∧
    (∃ d, getAttrDf ((impUncertainty impDemoModel "USD" [5] true true none twoSampleStore).1)
        "freq_curve_unc_df" = some d ∧
      d.nrows = (dfRows twoSampleStore.samples_df).length ∧
      ∀ i (hi : i < (dfRows twoSampleStore.samples_df).length),
        dfRow d i = (List.range ([(5 : Int)].length)).map
          (fun j => (mapImpactCalc impDemoModel true true
            ((dfRows twoSampleStore.samples_df).get ⟨i, hi⟩)).freq_curve.getD j PyVal.pnone)) ∧
    (∃ d, getAttrDf ((impUncertainty impDemoModel "USD" [5] true true none twoSampleStore).1)
        "eai_exp_unc_df" = some d ∧
      d.nrows = (dfRows twoSampleStore.samples_df).length ∧
      ∀ i (hi : i < (dfRows twoSampleStore.samples_df).length),
        dfRow d i = (List.range (maxLen ((dfRows twoSampleStore.samples_df).map
            (fun r => (mapImpactCalc impDemoModel true true r).eai_exp)))).map
          (fun j => (mapImpactCalc impDemoModel true true
            ((dfRows twoSampleStore.samples_df).get ⟨i, hi⟩)).eai_exp.getD j PyVal.pnone)) ∧
    (∃ d, getAttrDf ((impUncertainty impDemoModel "USD" [5] true true none twoSampleStore).1)
        "at_event_unc_df" = some d ∧
      d.nrows = (dfRows twoSampleStore.samples_df).length ∧
      ∀ i (hi : i < (dfRows twoSampleStore.samples_df).length),
        dfRow d i = (List.range (maxLen ((dfRows twoSampleStore.samples_df).map
            (fun r => (mapImpactCalc impDemoModel true true r).at_event)))).map
          (fun j => (mapImpactCalc impDemoModel true true
            ((dfRows twoSampleStore.samples_df).get ⟨i, hi⟩)).at_event.getD j PyVal.pnone)) ∧
    (∃ d, getAttrDf ((impUncertainty impDemoModel "USD" [5] true true none twoSampleStore).1)
        "tot_value_unc_df" = some d ∧
      d.nrows = (dfRows twoSampleStore.samples_df).length ∧
      ∀ i (hi : i < (dfRows twoSampleStore.samples_df).length),
        dfRow d i = [(mapImpactCalc impDemoModel true true
          ((dfRows twoSampleStore.samples_df).get ⟨i, hi⟩)).tot_value]) :=
  C5_metric_tables impDemoModel "USD" [5] true true twoSampleStore (by decide) _ _ _ rfl rfl rfl

/-! ## Claim C6 -/

/-- A store with samples but no uncertainty table at all. -/
def freshStore : UncOutput :=
  { samples_df :=
      { nrows := 3,
        cols := [("x", [PyVal.pint 1, PyVal.pint 2, PyVal.pint 3])],
        attrs := [] },
    unit := none,
    dfs := [],
    sensitivity_method := none,
    sensitivity_kwargs := none,
    cost_benefit_kwargs := none }

/-- The same store with one populated uncertainty table. -/
def c6TableStore : UncOutput :=
  { freshStore with
      dfs := [("aai_agg_unc_df",
        { nrows := 3,
          cols := [("aai_agg", [PyVal.pint 1, PyVal.pint 2, PyVal.pint 3])],
          attrs := [] })] }

/-- Claim C6 (counterexample): on a store with no uncertainty table,
`get_uncertainty()` does not return the (empty) concatenation — the
uncaught `pd.concat([])` raises ValueError instead. -/
theorem C6_counterexample :
    get_uncertainty freshStore none = .error "ValueError: No objects to concatenate" := by
  decide

/-- Claim C6 (amended): when at least one non-empty uncertainty table is
present, `get_uncertainty()` with no argument returns the horizontal
concatenation of all non-empty uncertainty tables (`pd.concat` raises
ValueError when there is none); and with a metric list containing a name
that is not an attribute it returns an empty DataFrame without raising. -/
theorem C6_amended (o : UncOutput)
    (hnd : ((allDfs o).map Prod.fst).Nodup)
    (hne : uncMetricPairs o ≠ [])
    (l : List String) (mn : String) (hm : mn ∈ l) (habs : getAttrDf o mn = none) :
    get_uncertainty o none = .ok (concatList ((uncMetricPairs o).map Prod.snd)) ∧
    get_uncertainty o (some l) = .ok emptyDf := by
  have hps : ∀ p ∈ uncMetricPairs o, getAttrDf o p.1 = some p.2 := fun p hp =>
    lookup_of_mem_nodup hnd (List.mem_of_mem_filter hp)
  constructor
  · have hred : get_uncertainty o none =
        (if ((uncMetricPairs o).map Prod.snd).isEmpty
         then Except.error "ValueError: No objects to concatenate"
         else .ok (concatList ((uncMetricPairs o).map Prod.snd))) := by
      unfold get_uncertainty uncertainty_metrics
      rw [Option.getD_none, lookupAll_map_fst hps]
    have hfalse : ((uncMetricPairs o).map Prod.snd).isEmpty = false := by
      cases hup : uncMetricPairs o with
      | nil => exact absurd hup hne
      | cons p t => rfl
    rw [hred, if_neg (by simp [hfalse])]
  · have hred : get_uncertainty o (some l) = .ok emptyDf := by
      unfold get_uncertainty
      rw [Option.getD_some, lookupAll_eq_none hm habs]
    exact hred

/-- Witness for C6_amended at a store holding one uncertainty table, with
a request list containing the absent name `ghost_unc_df`. -/
theorem C6_witness :
    get_uncertainty c6TableStore none =
      .ok (concatList ((uncMetricPairs c6TableStore).map Prod.snd)) ∧
    get_uncertainty c6TableStore (some ["aai_agg_unc_df", "ghost_unc_df"]) = .ok emptyDf :=
  C6_amended c6TableStore (by decide) (by decide) ["aai_agg_unc_df", "ghost_unc_df"]
    "ghost_unc_df" (by decide) (by decide)

/-! ## Claim C9 -/

/-- Claim C9: the cost-benefit pipeline first evaluates sample row 0 once
for calibration through `map(self._map_costben_calc, one_sample)`, i.e.
WITHOUT the caller's `cost_benefit_kwargs`, then evaluates every row with
those kwargs applied; hence row 0 is evaluated twice per run, and (third
conjunct, on a concrete model whose output depends on the kwargs) the
calibration evaluation differs from the full run's row-0 evaluation. -/
theorem C9_calibration_kwargs (model : List PyVal → List (String × PyVal) → CBMetrics)
    (kwargs : List (String × PyVal)) (u : String) (pool : Option Nat) (o : UncOutput)
    (h : o.samples_df.isEmpty = false) :
    (cbUncertainty model kwargs u pool o).2.2 =
      ((dfRows o.samples_df).take 1).map (fun r => (r, ([] : List (String × PyVal))))
        ++ (dfRows o.samples_df).map (fun r => (r, kwargs)) ∧
    2 ≤ (((cbUncertainty model kwargs u pool o).2.2).map Prod.fst).count
      (dfRows o.samples_df).headI ∧
    ((cbUncertainty cbDemoModel [("future_year", PyVal.pint 2050)] "USD" none
        twoSampleStore).2.2.map (fun p => (cbDemoModel p.1 p.2).tot_climate_risk)) =
      [PyVal.pint 0, PyVal.pint 1, PyVal.pint 1] := by
  have h1 : (cbUncertainty model kwargs u pool o).2.2 =
      ((dfRows o.samples_df).take 1).map (fun r => (r, ([] : List (String × PyVal))))
        ++ (dfRows o.samples_df).map (fun r => (r, kwargs)) := by
    unfold cbUncertainty
    rw [if_neg (by simp [h])]
  refine ⟨h1, ?_, by decide⟩
  rw [h1]
  have hn : o.samples_df.nrows ≠ 0 := by
    intro h0
    unfold DataFrame.isEmpty at h
    rw [h0] at h
    simp at h
  have hlen : 0 < (dfRows o.samples_df).length := by
    simp only [dfRows, List.length_map, List.length_range]
    omega
  obtain ⟨r, t, hrt⟩ := List.exists_cons_of_ne_nil (List.length_pos.mp hlen)
  rw [hrt]
  simp [List.count_cons]

/-- Witness for C9_calibration_kwargs at a concrete store and model. -/
theorem C9_witness :
    (cbUncertainty cbDemoModel [("future_year", PyVal.pint 2050)] "USD" none
        twoSampleStore).2.2 =
      ((dfRows twoSampleStore.samples_df).take 1).map
          (fun r => (r, ([] : List (String × PyVal))))
        ++ (dfRows twoSampleStore.samples_df).map
          (fun r => (r, [("future_year", PyVal.pint 2050)])) ∧
    2 ≤ (((cbUncertainty cbDemoModel [("future_year", PyVal.pint 2050)] "USD" none
        twoSampleStore).2.2).map Prod.fst).count
      (dfRows twoSampleStore.samples_df).headI ∧
    ((cbUncertainty cbDemoModel [("future_year", PyVal.pint 2050)] "USD" none
        twoSampleStore).2.2.map (fun p => (cbDemoModel p.1 p.2).tot_climate_risk)) =
      [PyVal.pint 0, PyVal.pint 1, PyVal.pint 1] :=
  C9_calibration_kwargs cbDemoModel [("future_year", PyVal.pint 2050)] "USD" none
    twoSampleStore (by decide)

/-! ## Claim C10 -/

/-- A store carrying both an uncertainty table and a sensitivity table. -/
def c10Store : UncOutput :=
  { samples_df :=
      { nrows := 2,
        cols := [("x", [PyVal.pint 1, PyVal.pint 2])],
        attrs := [] },
    unit := some "USD",
    dfs := [("aai_agg_unc_df",
      { nrows := 2, cols := [("aai_agg", [PyVal.pint 4, PyVal.pint 5])], attrs := [] }),
      ("aai_agg_sens_df",
      { nrows := 2,
        cols := [("si", [PyVal.pstr "S1", PyVal.pstr "ST"]),
          ("param", [PyVal.pstr "x", PyVal.pstr "x"]),
          ("aai_agg", [PyVal.pint 1, PyVal.pint 2])],
        attrs := [] })],
    sensitivity_method := some "sobol",
    sensitivity_kwargs := some [],
    cost_benefit_kwargs := none }

/-- Claim C10: a metric list mixing a present non-empty uncertainty table
with a name that is not an attribute makes `get_uncertainty` return an
entirely empty DataFrame (the present tables are discarded, since one
AttributeError aborts the whole comprehension), whereas `get_sensitivity`
skips absent metrics: its result on any list equals its result on the
sublist of present metrics. -/
theorem C10_mixed_list (o : UncOutput) (l : List String) (pn mn : String) (d : DataFrame)
    (_hp : pn ∈ l) (_hpd : getAttrDf o pn = some d) (_hdne : d.isEmpty = false)
    (hm : mn ∈ l) (habs : getAttrDf o mn = none) (si : String) :
    get_uncertainty o (some l) = .ok emptyDf ∧
    get_sensitivity o si (some l) =
      get_sensitivity o si (some (l.filter (fun n => (getAttrDf o n).isSome))) := by
  constructor
  · unfold get_uncertainty
    rw [Option.getD_some, lookupAll_eq_none hm habs]
  · unfold get_sensitivity
    rw [Option.getD_some, Option.getD_some, sensLoop_filter_isSome]

/-- Witness for C10_mixed_list at a concrete store, a mixed request list,
and the sensitivity index S1. -/
theorem C10_witness :
    get_uncertainty c10Store (some ["aai_agg_unc_df", "ghost_unc_df", "aai_agg_sens_df"]) =
      .ok emptyDf ∧
    get_sensitivity c10Store "S1" (some ["aai_agg_unc_df", "ghost_unc_df", "aai_agg_sens_df"]) =
      get_sensitivity c10Store "S1"
        (some (["aai_agg_unc_df", "ghost_unc_df", "aai_agg_sens_df"].filter
          (fun n => (getAttrDf c10Store n).isSome))) :=
  C10_mixed_list c10Store ["aai_agg_unc_df", "ghost_unc_df", "aai_agg_sens_df"]
    "aai_agg_unc_df" "ghost_unc_df"
    { nrows := 2, cols := [("aai_agg", [PyVal.pint 4, PyVal.pint 5])], attrs := [] }
    (by decide) (by decide) (by decide) (by decide) (by decide) "S1"

end Climada
